import Mathlib

/-!
Verification of the project-tikebook notebooks.

The repository consists of three Jupyter notebooks (Lesson 0 on cloud data
access, 01-Lightcurves, and 05-classify-with-ml).  This file gives a shallow
embedding of the code those notebooks own - the aperture-photometry helper,
the confusion-matrix helper, the NaN-filtering cell, the stella-import cell,
the quality-check loop, and the FITS-handle lifecycle - and proves the
specified properties about it.  numpy arrays are modelled as (flattened)
Lean lists; floating-point values are modelled as rationals extended with
explicit NaN and infinity markers where finiteness matters.
-/

/-- A pixel or flux value as stored in the notebooks' numpy arrays: an
ordinary finite number (modelled as a rational), NaN, or an infinity (the
two signed infinities are not distinguished; both are non-finite and not
NaN).  np.isnan holds exactly on NaN; np.isfinite holds exactly on finite
values. -/
inductive FluxVal where
  | finite (q : ℚ)
  | nan
  | inf
deriving DecidableEq

/-- np.isnan on one value. -/
def FluxVal.isnan : FluxVal → Bool
  | .nan => true
  | _ => false

/-- np.isfinite on one value. -/
def FluxVal.isfinite : FluxVal → Bool
  | .finite _ => true
  | _ => false

/-- Embedding of aperture_phot from 01-Lightcurves.ipynb (code cell 26):

  def aperture_phot(image,aperture):
      flux = np.sum(image[aperture==1])
      return flux

The two same-shape numpy arrays are modelled as flattened lists of
rationals.  The boolean mask image[aperture==1] pairs the arrays
elementwise and keeps the image entries whose aperture entry equals 1, and
np.sum adds the kept entries, returning 0 for an empty selection.  The
function only reads its arguments; being a plain Lean function it can
modify neither. -/
def aperture_phot (image aperture : List ℚ) : ℚ :=
  (((image.zip aperture).filter (fun p => p.2 == 1)).map Prod.fst).sum

/-- Specification-side description of the aperture sum, following the
spec's words rather than the code: the sum of the flux values of image at
exactly the positions where aperture equals 1. -/
def maskedPixelSum (image aperture : List ℚ) : ℚ :=
  ∑ i ∈ Finset.range image.length,
    if aperture.getD i 0 = 1 then image.getD i 0 else 0

/-- Embedding of the binarization step of plot_confusion_matrix in
05-classify-with-ml.ipynb (code cell 47):

  predictions = (predictions > 0.5).astype(int32)

applied elementwise to the model's output probabilities. -/
def binarize_predictions (predictions : List ℚ) : List ℕ :=
  predictions.map (fun p => if 1 / 2 < p then 1 else 0)

/-- metrics.confusion_matrix(input_labels, predictions, labels=[0, 1]),
entry (i, j): the number of samples whose true label is i and whose
predicted label is j.  With labels=[0, 1] the matrix is 2 by 2 and row i
corresponds to true label i. -/
def confusion_matrix (y_true y_pred : List ℕ) (i j : ℕ) : ℕ :=
  ((y_true.zip y_pred).filter (fun p => p.1 == i && p.2 == j)).length

/-- The matrix cm of plot_confusion_matrix after cm = cm.astype(float):
the confusion matrix of the input labels against the binarized
predictions, with entries read as rationals. -/
def cm (input_labels : List ℕ) (predictions : List ℚ) (i j : ℕ) : ℚ :=
  (confusion_matrix input_labels (binarize_predictions predictions) i j : ℚ)

/-- cm.sum(axis=1) entry i: the 2 by 2 matrix has columns 0 and 1, so row
i sums its two entries. -/
def cm_row_sum (input_labels : List ℕ) (predictions : List ℚ) (i : ℕ) : ℚ :=
  cm input_labels predictions i 0 + cm input_labels predictions i 1

/-- cm_norm = cm / cm.sum(axis=1)[:, np.newaxis]: each entry divided by
its row's sum (in Lean, division of a rational by 0 yields 0; the claims
below only concern rows with nonzero sum). -/
def cm_norm (input_labels : List ℕ) (predictions : List ℚ) (i j : ℕ) : ℚ :=
  cm input_labels predictions i j / cm_row_sum input_labels predictions i

/-- The fields of the stella FlareDataSet object that the
05-classify-with-ml notebook's own code touches: the train, test and
validation data arrays (each entry one light-curve segment, its 2D slice
flattened to a list of values) and the corresponding label arrays. -/
structure FlareDataSet where
  train_data : List (List FluxVal)
  train_labels : List ℕ
  test_data : List (List FluxVal)
  test_labels : List ℕ
  val_data : List (List FluxVal)
  val_labels : List ℕ
deriving DecidableEq

/-- Embedding of remove_nans from 05-classify-with-ml.ipynb (code cell
20):

  idx = []
  for k in range(np.shape(input_data)[0]):
      if len(input_data[k, :, :][np.isnan(input_data[k, :, :])]) == 0:
          idx.append(k)
  return idx

It returns, in increasing order, the indices k below the leading dimension
of input_data whose slice contains no NaN. -/
def remove_nans (input_data : List (List FluxVal)) : List ℕ :=
  (List.range input_data.length).filter
    (fun k => ((input_data.getD k []).filter FluxVal.isnan).length == 0)

/-- numpy integer-array indexing xs[idx]: the entries of xs at the
positions listed in idx, in the order of idx.  An out-of-range position
contributes nothing here (numpy would raise; remove_nans only produces
in-range indices, and the theorems below carry the length hypotheses under
which this totalization is never exercised). -/
def selectIdx {α : Type} (idx : List ℕ) (xs : List α) : List α :=
  idx.filterMap (fun k => xs[k]?)

/-- The NaN-filtering cell of 05-classify-with-ml.ipynb (code cell 20)
after the definition of remove_nans:

  idx_train = remove_nans(ds.train_data); idx_test = ...; idx_val = ...
  ds.train_data = ds.train_data[idx_train]
  ds.train_labels = ds.train_labels[idx_train]
  ... (likewise for test with idx_test and val with idx_val)

Each index list is computed from the partition's data array and then used
to index both that data array and its label array. -/
def afterNanCell (ds : FlareDataSet) : FlareDataSet :=
  ⟨selectIdx (remove_nans ds.train_data) ds.train_data,
   selectIdx (remove_nans ds.train_data) ds.train_labels,
   selectIdx (remove_nans ds.test_data) ds.test_data,
   selectIdx (remove_nans ds.test_data) ds.test_labels,
   selectIdx (remove_nans ds.val_data) ds.val_data,
   selectIdx (remove_nans ds.val_data) ds.val_labels⟩

/-- A concrete dataset whose single training segment contains a NaN; the
other partitions are empty.  Used to exhibit that the NaN-filtering cell
does change the library-produced arrays. -/
def dsNan : FlareDataSet :=
  ⟨[[FluxVal.nan]], [1], [], [], [], []⟩

/-- A concrete dataset with one NaN-free training segment; the other
partitions are empty. -/
def dsClean : FlareDataSet :=
  ⟨[[FluxVal.finite 1]], [1], [], [], [], []⟩

/-- A lightkurve light curve as the quality-check loop touches it: its
flux array. -/
structure LightCurve where
  flux : List FluxVal
deriving DecidableEq

/-- A concrete light curve whose flux contains a non-finite value. -/
def lcInf : LightCurve :=
  ⟨[FluxVal.inf]⟩

/-- One iteration of the quality-check loop of 05-classify-with-ml.ipynb
(code cell 53):

  for lc in lcs:
      if len(lc) > 0:
          lc = lc[0]
      if not np.all(np.isfinite(lc.flux)):
          print(warning)

For a nonempty downloaded collection the checked object is its first light
curve lc[0], and the result records whether the warning line is printed:
exactly when not all of its flux values are finite.  An empty collection is
not modelled (there the Python reads .flux off the whole collection
object), giving none. -/
def qualityCheckStep (lc : List LightCurve) : Option Bool :=
  match lc with
  | [] => none
  | lc0 :: _ => some (!(lc0.flux.all FluxVal.isfinite))

/-- The whole quality-check loop over the downloaded collections lcs: the
per-collection printed-warning flags in order, paired with the collections
themselves, which the loop body reads but never writes (it only rebinds
its local loop variable). -/
def qualityCheckLoop (lcs : List (List LightCurve)) :
    List (Option Bool) × List (List LightCurve) :=
  (lcs.map qualityCheckStep, lcs)

/-- The two source notebooks that call fits.open. -/
inductive SrcNotebook where
  | lesson0
  | lightcurves01
deriving DecidableEq

/-- The variables that receive a FITS handle from a fits.open call in the
notebooks. -/
inductive FitsHandleName where
  | with_hdulist
  | lc_fits
  | tp_fits
deriving DecidableEq

/-- One fits.open call transcribed from a notebook: which notebook and
which cell (index into the notebook's cell list) performs the open,
whether the open is the subject of a with block, whether the handle is
closed before the opening cell ends, and whether a later cell still reads
the handle. -/
structure FitsOpenEvent where
  notebook : SrcNotebook
  cellIndex : ℕ
  handleName : FitsHandleName
  withBlock : Bool
  closedInOpenCell : Bool
  readInLaterCell : Bool
deriving DecidableEq

/-- The fits.open of Lesson 0 (src/unnamed/part_000, cell 32): the open
is the subject of a with block, so the handle is closed when the block -
and hence the cell - ends, and no later cell reads it (only the image,
header and wcs values extracted inside the block are used afterwards). -/
def lesson0FitsOpen : FitsOpenEvent :=
  ⟨.lesson0, 32, .with_hdulist, true, true, false⟩

/-- The first fits.open of 01-Lightcurves.ipynb cell 14: lc_fits is bound
by a bare fits.open, no close() appears anywhere in the notebook, and the
later cell 16 reads the handle. -/
def lcFitsOpen : FitsOpenEvent :=
  ⟨.lightcurves01, 14, .lc_fits, false, false, true⟩

/-- The second fits.open of 01-Lightcurves.ipynb cell 14: tp_fits is
bound by a bare fits.open, no close() appears anywhere in the notebook,
and the later cells 22, 24 and 27 read the handle. -/
def tpFitsOpen : FitsOpenEvent :=
  ⟨.lightcurves01, 14, .tp_fits, false, false, true⟩

/-- Every fits.open call in the repository, transcribed from the source
(05-classify-with-ml contains no fits.open call of its own). -/
def fitsOpenEvents : List FitsOpenEvent :=
  [lesson0FitsOpen, lcFitsOpen, tpFitsOpen]

/-- The statements of the stella-import cell of 05-classify-with-ml.ipynb
(code cell 9): the import statement, and the install line

  conda run pip install git+https://github.com/afeinstein20/stella

written in the except branch. -/
inductive PyStmt where
  | importStella
  | condaRunPipInstall
deriving DecidableEq

/-- Whether a statement of that cell is syntactically valid Python.  The
statement importing stella is.  The install line is a bare juxtaposition of names with
no operator between them - a shell command written without any escape
prefix - and does not parse as a Python statement; being indented inside
the except block, it is also not subject to any notebook shell-escape or
automagic processing, which only applies to unindented single-line
input. -/
def PyStmt.syntacticallyValid : PyStmt → Bool
  | .importStella => true
  | .condaRunPipInstall => false

/-- Interpreter state for that cell: whether the stella package is
installed and whether it has been imported into the session. -/
structure PyEnv where
  stellaInstalled : Bool
  stellaImported : Bool
deriving DecidableEq

/-- The effect each statement would have if it were executed: import
stella succeeds exactly when the package is installed (raising an
exception otherwise, modelled as none); the install line, per the cell's
own comment (If import fails, install and then import), would install the
package. -/
def PyStmt.exec : PyStmt → PyEnv → Option PyEnv
  | .importStella, env =>
      if env.stellaInstalled then some ⟨env.stellaInstalled, true⟩ else none
  | .condaRunPipInstall, env => some ⟨true, env.stellaImported⟩

/-- Sequential execution of a list of statements, stopping at the first
exception. -/
def execStmts : List PyStmt → PyEnv → Option PyEnv
  | [], env => some env
  | s :: rest, env =>
      match s.exec env with
      | some env2 => execStmts rest env2
      | none => none

/-- A notebook cell consisting of one try/except block with a bare
except clause. -/
structure TryExceptCell where
  tryBody : List PyStmt
  exceptBody : List PyStmt

/-- The stella-import cell as written: a try block whose body is the
stella import statement, and a bare except block whose body is the
conda/pip install line followed by the stella import statement again. -/
def stellaImportCell : TryExceptCell :=
  ⟨[.importStella], [.condaRunPipInstall, .importStella]⟩

/-- Possible outcomes of running one cell. -/
inductive CellOutcome where
  | syntaxError
  | raised
  | completed (env : PyEnv)
deriving DecidableEq

/-- Running one notebook cell: Python compiles the whole cell before
executing anything, so a single syntactically invalid statement anywhere
in it aborts the cell with a SyntaxError before any statement runs.
Otherwise the try body runs, and if it raises, the broad except clause
catches the exception and the except body runs. -/
def runCell (c : TryExceptCell) (env : PyEnv) : CellOutcome :=
  if (c.tryBody ++ c.exceptBody).all PyStmt.syntacticallyValid then
    match execStmts c.tryBody env with
    | some env2 => .completed env2
    | none =>
        match execStmts c.exceptBody env with
        | some env2 => .completed env2
        | none => .raised
  else .syntaxError

/-- The fixed target list of 05-classify-with-ml.ipynb (code cell 51):

  ticids = [120461526, 278779899, 139754153, 273418879, 52121469,
            188580272, 394015919, 206544316]

(the notebook writes the TIC identifiers as strings; they are transcribed
here as the corresponding numbers). -/
def ticids : List ℕ :=
  [120461526, 278779899, 139754153, 273418879, 52121469, 188580272,
   394015919, 206544316]

/-- The map lambda loop of 01-Lightcurves.ipynb (code cells 27 and 39):

  flux = np.array(list(map(lambda x: aperture_phot(x, aperture), pix[FLUX])))

one aperture sum per cadence of the pixel stack. -/
def flux_map (pix_flux : List (List ℚ)) (aperture : List ℚ) : List ℚ :=
  pix_flux.map (fun x => aperture_phot x aperture)

/-- The two list comprehensions of 05-classify-with-ml.ipynb (code cell
22):

  example_lightcurves = [ds.train_data[j] for j in example_ids]

one iteration, and one output entry, per selected id.  example_ids is
produced by np.random.choice(len(ds.train_labels), 16), so its entries are
below the array length and the out-of-range default here is never
exercised (numpy would raise). -/
def example_lightcurves (train_data : List (List FluxVal))
    (example_ids : List ℕ) : List (List FluxVal) :=
  example_ids.map (fun j => train_data.getD j [])

/-- The companion comprehension of the same cell:

  example_labels = [ds.train_labels[j] for j in example_ids]
-/
def example_labels (train_labels : List ℕ) (example_ids : List ℕ) : List ℕ :=
  example_ids.map (fun j => train_labels.getD j 0)

/-- The 16-panel plotting loop of 05-classify-with-ml.ipynb (code cell
22):

  for i in range(len(example_ids)):
      plt.subplot(4, 4, i + 1)
      plt.plot(example_lightcurves[i], color=colors[example_labels[i]])
      plt.title(titles[example_labels[i]]); plt.xlabel(...)

modelled as the list of (light curve, label) pairs the loop renders, one
per index of range(len(example_ids)); the colors and titles dictionaries
only map the label to presentation attributes. -/
def examplePlotPanels (example_ids : List ℕ)
    (lightcurves : List (List FluxVal)) (labels : List ℕ) :
    List ((List FluxVal) × ℕ) :=
  (List.range example_ids.length).map
    (fun i => (lightcurves.getD i [], labels.getD i 0))

/-- The nested annotation loops at the end of plot_confusion_matrix
(05-classify-with-ml.ipynb code cell 47):

  for i in range(cm_norm.shape[0]):
      for j in range(cm_norm.shape[1]):
          ax.text(j, i, format(cm_norm[i, j], fmt), ...)

cm_norm comes from confusion_matrix with labels=[0, 1], so its shape is
(2, 2) and both ranges have length 2; the annotated cells with their
values, row by row. -/
def confusionAnnotations (input_labels : List ℕ) (predictions : List ℚ) :
    List (ℕ × ℕ × ℚ) :=
  (List.range 2).flatMap
    (fun i => (List.range 2).map
      (fun j => (i, j, cm_norm input_labels predictions i j)))

/-- The checked light curve of one iteration of the prediction loop of
05-classify-with-ml.ipynb (code cell 57):

  for i, lc in enumerate(lcs):
      if len(lc) > 0: lc = lc[0]
      cnn_stella.predict(cnn_file, times=lc.time.value, fluxes=lc.flux, ...)
      ax = fig.add_subplot(4, 2, i + 1); ...

as in the quality-check loop, a nonempty collection's first light curve
is the object whose arrays are passed to predict; the empty case, where
the attribute reads hit the collection object, is not modelled. -/
def predictionChecked (lc : List LightCurve) : Option LightCurve :=
  match lc with
  | [] => none
  | lc0 :: _ => some lc0

/-- The prediction loop over the downloaded collections: the checked
light curve per collection, in order. -/
def predictionLoop (lcs : List (List LightCurve)) : List (Option LightCurve) :=
  lcs.map predictionChecked

/-- A Python for loop over a list, fuel-indexed with one unit of fuel per
iteration: the loop folds its body over the remaining elements and
returns none when fuel runs out before the list is exhausted.  Running it
with fuel equal to the length of its iteration domain therefore expresses
that the loop terminates after exactly that many iterations. -/
def forLoopFuel {α σ : Type} (body : σ → α → σ) :
    ℕ → List α → σ → Option σ
  | _, [], s => some s
  | 0, _ :: _, _ => none
  | fuel + 1, x :: xs, s => forLoopFuel body fuel xs (body s x)

/-- Every loop construct written in the notebooks' own code, one
constructor per site, transcribed from the source.  Lesson 0
(src/unnamed/part_000) contains no loop; 01-Lightcurves.ipynb contains
exactly the two aperture-photometry maps (code cells 27 and 39);
05-classify-with-ml.ipynb contains exactly the remove_nans for loop (code
cell 20), the two list comprehensions and the 16-panel plotting loop
(code cell 22), the nested annotation loops of plot_confusion_matrix
(code cell 47), the ticids download loop (code cell 51), the
quality-check loop (code cell 53) and the prediction loop (code cell 57).
No other cell of the repository contains a for or while loop, a
comprehension, or a map call. -/
inductive NotebookLoopSite where
  | apertureMapTP
  | apertureMapFFI
  | removeNansFor
  | exampleLightcurvesList
  | exampleLabelsList
  | examplePlotFor
  | confusionAnnotationOuterFor
  | confusionAnnotationInnerFor
  | ticidsFor
  | qualityCheckFor
  | predictionFor
deriving DecidableEq

/-- What C7 asserts of one transcribed loop site: its iteration domain is
the fixed finite list the source writes (ticids; range 2 from the 2 by 2
shape; range of len(example_ids)) or the input array (one iteration per
element), and the loop, modelled as the fuel-indexed for over that
domain, completes with exactly one unit of fuel per domain element,
computing the modelled per-loop result. -/
def loopTerminates : NotebookLoopSite → Prop
  | .apertureMapTP => ∀ (pix_flux : List (List ℚ)) (aperture : List ℚ),
      forLoopFuel (fun acc x => acc ++ [aperture_phot x aperture])
        pix_flux.length pix_flux [] = some (flux_map pix_flux aperture)
  | .apertureMapFFI => ∀ (pix_flux : List (List ℚ)) (aperture : List ℚ),
      forLoopFuel (fun acc x => acc ++ [aperture_phot x aperture])
        pix_flux.length pix_flux [] = some (flux_map pix_flux aperture)
  | .removeNansFor => ∀ d : List (List FluxVal),
      forLoopFuel
        (fun idx k =>
          if ((d.getD k []).filter FluxVal.isnan).length == 0
          then idx ++ [k] else idx)
        d.length (List.range d.length) [] = some (remove_nans d)
  | .exampleLightcurvesList => ∀ (td : List (List FluxVal)) (ids : List ℕ),
      forLoopFuel (fun acc j => acc ++ [td.getD j []]) ids.length ids []
        = some (example_lightcurves td ids)
  | .exampleLabelsList => ∀ (tl : List ℕ) (ids : List ℕ),
      forLoopFuel (fun acc j => acc ++ [tl.getD j 0]) ids.length ids []
        = some (example_labels tl ids)
  | .examplePlotFor =>
      ∀ (ids : List ℕ) (lcs : List (List FluxVal)) (labels : List ℕ),
      forLoopFuel (fun acc i => acc ++ [(lcs.getD i [], labels.getD i 0)])
        ids.length (List.range ids.length) []
        = some (examplePlotPanels ids lcs labels)
  | .confusionAnnotationOuterFor =>
      ∀ (input_labels : List ℕ) (predictions : List ℚ),
      forLoopFuel
        (fun acc i => acc ++ (List.range 2).map
          (fun j => (i, j, cm_norm input_labels predictions i j)))
        2 (List.range 2) [] = some (confusionAnnotations input_labels predictions)
  | .confusionAnnotationInnerFor =>
      ∀ (input_labels : List ℕ) (predictions : List ℚ) (i : ℕ),
      forLoopFuel
        (fun acc j => acc ++ [(i, j, cm_norm input_labels predictions i j)])
        2 (List.range 2) []
        = some ((List.range 2).map
            (fun j => (i, j, cm_norm input_labels predictions i j)))
  | .ticidsFor => ticids.length = 8
      ∧ ∀ download : ℕ → List LightCurve,
          forLoopFuel (fun acc name => acc ++ [download name])
            ticids.length ticids [] = some (ticids.map download)
  | .qualityCheckFor => ∀ lcs : List (List LightCurve),
      forLoopFuel (fun acc c => acc ++ [qualityCheckStep c]) lcs.length lcs []
        = some ((qualityCheckLoop lcs).1)
  | .predictionFor => ∀ lcs : List (List LightCurve),
      forLoopFuel (fun acc c => acc ++ [predictionChecked c]) lcs.length lcs []
        = some (predictionLoop lcs)

/-- Splitting one aperture_phot step off a cons cell. -/
lemma aperture_phot_cons (x a : ℚ) (xs as : List ℚ) :
    aperture_phot (x :: xs) (a :: as)
      = (if a = 1 then x else 0) + aperture_phot xs as := by
  simp only [aperture_phot, List.zip_cons_cons, List.filter_cons]
  by_cases ha : a = 1
  · simp [ha]
  · simp [ha]

/-- Splitting one maskedPixelSum step off a cons cell. -/
lemma maskedPixelSum_cons (x a : ℚ) (xs as : List ℚ) :
    maskedPixelSum (x :: xs) (a :: as)
      = (if a = 1 then x else 0) + maskedPixelSum xs as := by
  rw [maskedPixelSum, List.length_cons, Finset.sum_range_succ']
  simp only [List.getD_cons_succ, List.getD_cons_zero]
  rw [add_comm]
  rfl

/-- C1: for same-shape image and aperture arrays, aperture_phot returns
the sum of the flux values of image at exactly the positions where
aperture equals 1; it is a single arithmetic reduction (a pure total
function on the two arrays, with no other outcome than the sum), so it
modifies neither input. -/
theorem aperture_phot_eq_maskedPixelSum (image aperture : List ℚ)
    (h : image.length = aperture.length) :
    aperture_phot image aperture = maskedPixelSum image aperture := by
  induction image generalizing aperture with
  | nil => simp [aperture_phot, maskedPixelSum]
  | cons x xs ih =>
    cases aperture with
    | nil => simp at h
    | cons a as =>
      have hlen : xs.length = as.length := by simpa using h
      rw [aperture_phot_cons, maskedPixelSum_cons, ih as hlen]

/-- Witness for C1 at a concrete input. -/
theorem aperture_phot_eq_maskedPixelSum_witness :
    ([(2 : ℚ), 3, 4].length = [(1 : ℚ), 0, 1].length)
    ∧ aperture_phot [2, 3, 4] [1, 0, 1] = maskedPixelSum [2, 3, 4] [1, 0, 1] :=
  ⟨rfl, aperture_phot_eq_maskedPixelSum [2, 3, 4] [1, 0, 1] rfl⟩

/-- C9: if no entry of the aperture array equals 1, aperture_phot returns
0, the sum over the empty selection; no error is raised (the function is
total). -/
theorem aperture_phot_empty_aperture (image aperture : List ℚ)
    (h : ∀ a ∈ aperture, a ≠ 1) :
    aperture_phot image aperture = 0 := by
  have hfil : (image.zip aperture).filter (fun p => p.2 == 1) = [] := by
    rw [List.filter_eq_nil_iff]
    rintro ⟨p1, p2⟩ hp
    have h2 : p2 ∈ aperture := (List.of_mem_zip hp).2
    simp [h p2 h2]
  rw [aperture_phot, hfil]
  simp

/-- Witness for C9 at a concrete input. -/
theorem aperture_phot_empty_aperture_witness :
    (∀ a ∈ [(0 : ℚ), 2], a ≠ 1) ∧ aperture_phot [5, 7] [0, 2] = 0 :=
  ⟨by decide, aperture_phot_empty_aperture [5, 7] [0, 2] (by decide)⟩

/-- C2: in plot_confusion_matrix the confusion matrix of the input labels
against the binarized predictions is normalized row-wise: every entry of
cm_norm is the corresponding cm entry divided by its row sum, and every
row of cm whose sum is nonzero yields a cm_norm row summing to 1.  The
rest of the function only renders the heatmap and computes nothing further
from the data. -/
theorem cm_norm_rows_normalized (input_labels : List ℕ) (predictions : List ℚ)
    (i : ℕ) (h : cm_row_sum input_labels predictions i ≠ 0) :
    (∀ j, cm_norm input_labels predictions i j
        = cm input_labels predictions i j / cm_row_sum input_labels predictions i)
    ∧ cm_norm input_labels predictions i 0 + cm_norm input_labels predictions i 1 = 1 := by
  refine ⟨fun j => rfl, ?_⟩
  rw [cm_norm, cm_norm, div_add_div_same]
  exact div_self h

/-- Witness for C2 at a concrete input: labels [0, 1] with predicted
probabilities [0, 1] give row 0 of cm the sum 1. -/
theorem cm_norm_rows_normalized_witness :
    cm_row_sum [0, 1] [0, 1] 0 ≠ 0
    ∧ ((∀ j, cm_norm [0, 1] [0, 1] 0 j
          = cm [0, 1] [0, 1] 0 j / cm_row_sum [0, 1] [0, 1] 0)
        ∧ cm_norm [0, 1] [0, 1] 0 0 + cm_norm [0, 1] [0, 1] 0 1 = 1) := by
  have hb : binarize_predictions [0, 1] = [0, 1] := by
    norm_num [binarize_predictions]
  have h : cm_row_sum [0, 1] [0, 1] 0 ≠ 0 := by
    simp only [cm_row_sum, cm, hb]
    rw [(by decide : confusion_matrix [0, 1] [0, 1] 0 0 = 1),
      (by decide : confusion_matrix [0, 1] [0, 1] 0 1 = 0)]
    norm_num
  exact ⟨h, cm_norm_rows_normalized [0, 1] [0, 1] 0 h⟩

/-- C10: in plot_confusion_matrix a light curve is counted as a predicted
flare (binarized label 1) exactly when the model's output probability is
strictly greater than 0.5, and a probability of exactly 0.5 is binarized
to non-flare (0). -/
theorem binarize_strict_threshold (predictions : List ℚ) (k : ℕ) (p : ℚ)
    (h : predictions[k]? = some p) :
    ((binarize_predictions predictions)[k]? = some 1 ↔ 1 / 2 < p)
    ∧ (p = 1 / 2 → (binarize_predictions predictions)[k]? = some 0) := by
  have hm : (binarize_predictions predictions)[k]?
      = some (if 1 / 2 < p then 1 else 0) := by
    rw [binarize_predictions, List.getElem?_map, h]
    rfl
  rw [hm]
  constructor
  · by_cases hp : 1 / 2 < p
    · simp [hp]
    · simp [hp]
  · intro hp
    subst hp
    simp [lt_irrefl]

/-- Witness for C10 at a concrete input. -/
theorem binarize_strict_threshold_witness :
    ([(3 : ℚ) / 4][0]? = some (3 / 4))
    ∧ (((binarize_predictions [3 / 4])[0]? = some 1 ↔ (1 : ℚ) / 2 < 3 / 4)
        ∧ ((3 : ℚ) / 4 = 1 / 2 → (binarize_predictions [3 / 4])[0]? = some 0)) :=
  ⟨rfl, binarize_strict_threshold [3 / 4] 0 (3 / 4) rfl⟩

/-- Counterexample to C3 as stated: it is not the case that every FITS
handle opened by notebook code is closed within its opening cell - the
lc_fits and tp_fits handles of 01-Lightcurves cell 14 never are. -/
theorem fits_handles_not_all_scoped :
    ¬ ∀ e ∈ fitsOpenEvents, e.closedInOpenCell = true := by
  intro hall
  exact absurd (hall lcFitsOpen (by decide)) (by decide)

/-- C3 amended: a FITS handle opened by notebook code is closed within
its opening cell exactly when the open is the subject of a with block
(the Lesson 0 idiom); the two bare fits.open handles of 01-Lightcurves
are not closed in their opening cell and are still read by later cells,
so those handles outlive the cell that created them. -/
theorem fits_handle_scoped_iff_with_block (e : FitsOpenEvent)
    (h : e ∈ fitsOpenEvents) :
    e.closedInOpenCell = e.withBlock
    ∧ (e.withBlock = false → e.readInLaterCell = true) := by
  have H : ∀ x ∈ fitsOpenEvents,
      x.closedInOpenCell = x.withBlock
      ∧ (x.withBlock = false → x.readInLaterCell = true) := by decide
  exact H e h

/-- Witness for the amended C3 at the Lesson 0 with-block event. -/
theorem fits_handle_scoped_iff_with_block_witness :
    lesson0FitsOpen ∈ fitsOpenEvents
    ∧ (lesson0FitsOpen.closedInOpenCell = lesson0FitsOpen.withBlock
      ∧ (lesson0FitsOpen.withBlock = false
          → lesson0FitsOpen.readInLaterCell = true)) :=
  ⟨by decide, fits_handle_scoped_iff_with_block lesson0FitsOpen (by decide)⟩

/-- C4: the stella-import cell cannot perform its advertised
catch-and-reinstall.  The install line of the except branch is not a
valid Python statement, so compiling the cell raises SyntaxError before
any statement runs, whatever the state of the environment; in particular,
when the initial import would have failed (stella not installed), the
cell neither installs nor imports stella, contrary to the cell's own
comment. -/
theorem runCell_stellaImportCell_syntaxError (env : PyEnv) :
    runCell stellaImportCell env = CellOutcome.syntaxError :=
  rfl

/-- C5: a downloaded collection processed by the quality-check loop (at
position i of lcs) that contains at least one light curve gets the
warning line printed exactly when the flux array of the checked light
curve - the collection's first - contains a non-finite value; and the
loop leaves the collections themselves unchanged. -/
theorem qualityCheck_warning_iff (lcs : List (List LightCurve)) (i : ℕ)
    (lc0 : LightCurve) (rest : List LightCurve)
    (h : lcs[i]? = some (lc0 :: rest)) :
    (((qualityCheckLoop lcs).1)[i]? = some (some true)
      ↔ ∃ v ∈ lc0.flux, v.isfinite = false)
    ∧ (qualityCheckLoop lcs).2 = lcs := by
  refine ⟨?_, rfl⟩
  have hm : ((qualityCheckLoop lcs).1)[i]?
      = some (some (!(lc0.flux.all FluxVal.isfinite))) := by
    show (lcs.map qualityCheckStep)[i]? = _
    rw [List.getElem?_map, h]
    rfl
  rw [hm]
  simp only [Option.some.injEq, Bool.not_eq_true', List.all_eq_false,
    Bool.not_eq_true]

/-- Witness for C5 at a concrete input: one collection holding one light
curve with an infinite flux value. -/
theorem qualityCheck_warning_iff_witness :
    (([[lcInf]] : List (List LightCurve))[0]? = some (lcInf :: []))
    ∧ ((((qualityCheckLoop [[lcInf]]).1)[0]? = some (some true)
        ↔ ∃ v ∈ lcInf.flux, v.isfinite = false)
      ∧ (qualityCheckLoop [[lcInf]]).2 = [[lcInf]]) :=
  ⟨rfl, qualityCheck_warning_iff [[lcInf]] 0 lcInf [] rfl⟩

/-- Indices produced by remove_nans are in range and point at NaN-free
slices. -/
lemma mem_remove_nans {d : List (List FluxVal)} {k : ℕ}
    (hk : k ∈ remove_nans d) :
    k < d.length ∧ ∀ v ∈ d.getD k [], v.isnan = false := by
  rw [remove_nans, List.mem_filter] at hk
  obtain ⟨h1, h2⟩ := hk
  refine ⟨List.mem_range.mp h1, ?_⟩
  simp only [beq_iff_eq, List.length_eq_zero] at h2
  intro v hv
  cases hvi : v.isnan with
  | false => rfl
  | true =>
    exfalso
    have hvm : v ∈ (d.getD k []).filter FluxVal.isnan :=
      List.mem_filter.mpr ⟨hv, hvi⟩
    rw [h2] at hvm
    exact absurd hvm (List.not_mem_nil v)

/-- selectIdx with in-range indices selects one entry per index. -/
lemma selectIdx_length {α : Type} {idx : List ℕ} {xs : List α}
    (h : ∀ k ∈ idx, k < xs.length) :
    (selectIdx idx xs).length = idx.length := by
  induction idx with
  | nil => rfl
  | cons k ks ih =>
    have hk : k < xs.length := h k (List.mem_cons_self k ks)
    have hs : xs[k]? = some xs[k] := List.getElem?_eq_getElem hk
    have ih2 := ih (fun j hj => h j (List.mem_cons_of_mem _ hj))
    simp only [selectIdx, List.filterMap_cons, hs, List.length_cons] at ih2 ⊢
    omega

/-- Every entry of selectIdx comes from some index of idx. -/
lemma mem_selectIdx {α : Type} {idx : List ℕ} {xs : List α} {x : α}
    (hx : x ∈ selectIdx idx xs) : ∃ k ∈ idx, xs[k]? = some x := by
  rw [selectIdx, List.mem_filterMap] at hx
  obtain ⟨k, hk, hkx⟩ := hx
  exact ⟨k, hk, hkx⟩

/-- One partition through the NaN-filtering cell: the filtered data and
label arrays have the same length, and no retained slice contains a
NaN. -/
lemma selectNans_partition (d : List (List FluxVal)) (lab : List ℕ)
    (hlen : lab.length = d.length) :
    (selectIdx (remove_nans d) d).length
      = (selectIdx (remove_nans d) lab).length
    ∧ ∀ row ∈ selectIdx (remove_nans d) d, ∀ v ∈ row, v.isnan = false := by
  constructor
  · rw [selectIdx_length (fun k hk => (mem_remove_nans hk).1),
      selectIdx_length (fun k hk => hlen ▸ (mem_remove_nans hk).1)]
  · intro row hrow v hv
    obtain ⟨k, hk, hg⟩ := mem_selectIdx hrow
    have h2 := (mem_remove_nans hk).2
    have hrw : d.getD k [] = row := by
      rw [List.getD_eq_getElem?_getD, hg]
      rfl
    rw [hrw] at h2
    exact h2 v hv

/-- C8: after the NaN-filtering cell, each partition's data and label
arrays (both indexed by the same remove_nans index list) have equal
length, and no retained light-curve segment contains a NaN. -/
theorem afterNanCell_partitions_aligned_nanfree (ds : FlareDataSet)
    (htr : ds.train_labels.length = ds.train_data.length)
    (hte : ds.test_labels.length = ds.test_data.length)
    (hva : ds.val_labels.length = ds.val_data.length) :
    ((afterNanCell ds).train_data.length = (afterNanCell ds).train_labels.length
      ∧ ∀ row ∈ (afterNanCell ds).train_data, ∀ v ∈ row, v.isnan = false)
    ∧ ((afterNanCell ds).test_data.length = (afterNanCell ds).test_labels.length
      ∧ ∀ row ∈ (afterNanCell ds).test_data, ∀ v ∈ row, v.isnan = false)
    ∧ ((afterNanCell ds).val_data.length = (afterNanCell ds).val_labels.length
      ∧ ∀ row ∈ (afterNanCell ds).val_data, ∀ v ∈ row, v.isnan = false) :=
  ⟨selectNans_partition ds.train_data ds.train_labels htr,
   selectNans_partition ds.test_data ds.test_labels hte,
   selectNans_partition ds.val_data ds.val_labels hva⟩

/-- Witness for C8 at the concrete dataset dsNan. -/
theorem afterNanCell_partitions_aligned_nanfree_witness :
    (dsNan.train_labels.length = dsNan.train_data.length
      ∧ dsNan.test_labels.length = dsNan.test_data.length
      ∧ dsNan.val_labels.length = dsNan.val_data.length)
    ∧ (((afterNanCell dsNan).train_data.length
          = (afterNanCell dsNan).train_labels.length
        ∧ ∀ row ∈ (afterNanCell dsNan).train_data, ∀ v ∈ row, v.isnan = false)
      ∧ ((afterNanCell dsNan).test_data.length
          = (afterNanCell dsNan).test_labels.length
        ∧ ∀ row ∈ (afterNanCell dsNan).test_data, ∀ v ∈ row, v.isnan = false)
      ∧ ((afterNanCell dsNan).val_data.length
          = (afterNanCell dsNan).val_labels.length
        ∧ ∀ row ∈ (afterNanCell dsNan).val_data, ∀ v ∈ row, v.isnan = false)) :=
  ⟨⟨rfl, rfl, rfl⟩,
   afterNanCell_partitions_aligned_nanfree dsNan rfl rfl rfl⟩

/-- Counterexample to C6 as stated: the repository's own NaN-filtering
code does change the library-produced partitions.  On a dataset whose
single training segment contains a NaN, the arrays after the cell are not
those the library produced. -/
theorem afterNanCell_changes_dsNan : afterNanCell dsNan ≠ dsNan := by
  decide

/-- remove_nans keeps every index when no slice contains a NaN. -/
lemma remove_nans_of_no_nans {d : List (List FluxVal)}
    (h : ∀ row ∈ d, ∀ v ∈ row, v.isnan = false) :
    remove_nans d = List.range d.length := by
  rw [remove_nans]
  apply List.filter_eq_self.mpr
  intro k hk
  have hlt : k < d.length := List.mem_range.mp hk
  have hmem : d.getD k [] ∈ d := by
    simp only [List.getD_eq_getElem?_getD, List.getElem?_eq_getElem hlt,
      Option.getD_some]
    exact List.getElem_mem hlt
  have hfil : (d.getD k []).filter FluxVal.isnan = [] :=
    List.filter_eq_nil_iff.mpr (fun v hv => by simp [h _ hmem v hv])
  show (((d.getD k []).filter FluxVal.isnan).length == 0) = true
  rw [hfil]
  rfl

/-- Selecting every index in order is the identity. -/
lemma selectIdx_range {α : Type} (xs : List α) :
    selectIdx (List.range xs.length) xs = xs := by
  induction xs with
  | nil => rfl
  | cons x xs ih =>
    have ih2 : List.filterMap (fun k => xs[k]?) (List.range xs.length) = xs := by
      simpa [selectIdx] using ih
    have hcomp : ((fun k => (x :: xs)[k]?) ∘ Nat.succ) = fun k => xs[k]? := by
      funext k
      simp
    simp only [selectIdx, List.length_cons, List.range_succ_eq_map,
      List.filterMap_cons, List.getElem?_cons_zero, List.filterMap_map,
      hcomp, ih2]

/-- C6 amended: the train, validation and test partitions are produced by
the third-party library, but the notebook's own NaN-filtering cell then
re-indexes them; the partition data and label arrays are exactly as the
library produced them only in the NaN-free case: when no segment of any
partition contains a NaN (and each label array matches its data array in
length), the cell leaves the dataset unchanged. -/
theorem afterNanCell_id_of_no_nans (ds : FlareDataSet)
    (htr : ds.train_labels.length = ds.train_data.length)
    (hte : ds.test_labels.length = ds.test_data.length)
    (hva : ds.val_labels.length = ds.val_data.length)
    (h1 : ∀ row ∈ ds.train_data, ∀ v ∈ row, v.isnan = false)
    (h2 : ∀ row ∈ ds.test_data, ∀ v ∈ row, v.isnan = false)
    (h3 : ∀ row ∈ ds.val_data, ∀ v ∈ row, v.isnan = false) :
    afterNanCell ds = ds := by
  obtain ⟨td, tl, sd, sl, vd, vl⟩ := ds
  dsimp only at htr hte hva h1 h2 h3
  dsimp only [afterNanCell]
  rw [remove_nans_of_no_nans h1, remove_nans_of_no_nans h2,
    remove_nans_of_no_nans h3, selectIdx_range td, selectIdx_range sd,
    selectIdx_range vd, ← htr, ← hte, ← hva, selectIdx_range tl,
    selectIdx_range sl, selectIdx_range vl]

/-- Witness for the amended C6 at the concrete NaN-free dataset
dsClean. -/
theorem afterNanCell_id_of_no_nans_witness :
    (dsClean.train_labels.length = dsClean.train_data.length
      ∧ dsClean.test_labels.length = dsClean.test_data.length
      ∧ dsClean.val_labels.length = dsClean.val_data.length
      ∧ (∀ row ∈ dsClean.train_data, ∀ v ∈ row, v.isnan = false)
      ∧ (∀ row ∈ dsClean.test_data, ∀ v ∈ row, v.isnan = false)
      ∧ (∀ row ∈ dsClean.val_data, ∀ v ∈ row, v.isnan = false))
    ∧ afterNanCell dsClean = dsClean :=
  ⟨⟨rfl, rfl, rfl, by decide, by decide, by decide⟩,
   afterNanCell_id_of_no_nans dsClean rfl rfl rfl (by decide) (by decide)
     (by decide)⟩

/-- The fuel-indexed for loop finishes once it has one unit of fuel per
remaining element, computing the fold of its body over the domain. -/
lemma forLoopFuel_complete {α σ : Type} (body : σ → α → σ) (xs : List α) :
    ∀ (fuel : ℕ) (s : σ), xs.length ≤ fuel →
      forLoopFuel body fuel xs s = some (xs.foldl body s) := by
  induction xs with
  | nil =>
    intro fuel s h
    cases fuel with
    | zero => rfl
    | succ fuel => rfl
  | cons x xs ih =>
    intro fuel s h
    cases fuel with
    | zero => simp at h
    | succ fuel =>
      have h2 : xs.length ≤ fuel := by simpa using h
      rw [show forLoopFuel body (fuel + 1) (x :: xs) s
          = forLoopFuel body fuel xs (body s x) from rfl,
        ih fuel (body s x) h2, List.foldl_cons]

/-- A loop body that appends one value per element folds to the map of
the domain. -/
lemma foldl_append_map {α β : Type} (f : α → β) (l : List α) :
    ∀ s : List β, l.foldl (fun acc x => acc ++ [f x]) s = s ++ l.map f := by
  induction l with
  | nil =>
    intro s
    simp
  | cons x xs ih =>
    intro s
    rw [List.foldl_cons, ih (s ++ [f x]), List.map_cons, List.append_assoc,
      List.singleton_append]

/-- A loop body that appends the element when a test holds folds to the
filter of the domain. -/
lemma foldl_append_filter {α : Type} (p : α → Bool) (l : List α) :
    ∀ s : List α,
      l.foldl (fun acc x => if p x then acc ++ [x] else acc) s
        = s ++ l.filter p := by
  induction l with
  | nil =>
    intro s
    simp
  | cons x xs ih =>
    intro s
    rw [List.foldl_cons]
    by_cases hp : p x = true
    · have hfk : List.filter p (x :: xs) = x :: List.filter p xs :=
        List.filter_cons_of_pos hp
      rw [if_pos hp, ih (s ++ [x]), hfk, List.append_assoc,
        List.singleton_append]
    · have hfk : List.filter p (x :: xs) = List.filter p xs :=
        List.filter_cons_of_neg hp
      rw [if_neg hp, ih s, hfk]

/-- A loop body that appends a whole list per element folds to the bind
of the domain. -/
lemma foldl_append_flat {α β : Type} (g : α → List β) (l : List α) :
    ∀ s : List β, l.foldl (fun acc x => acc ++ g x) s = s ++ l.flatMap g := by
  induction l with
  | nil =>
    intro s
    simp
  | cons x xs ih =>
    intro s
    rw [List.foldl_cons, ih (s ++ g x), List.flatMap_cons, List.append_assoc]

/-- C7: every loop written in the notebooks' own code - all eleven loop
sites of NotebookLoopSite, which transcribes them exhaustively - iterates
over a fixed, finite list of targets (ticids; range 2 from the fixed 2 by
2 confusion-matrix shape; range of len(example_ids)) or a range bounded
by an input array's length (one iteration per row, cadence or
collection), and, modelled as a fuel-indexed for over that domain,
completes with exactly one unit of fuel per domain element, so the
execution of every cell's code is a terminating straight-line
computation. -/
theorem notebook_loops_bounded : ∀ l : NotebookLoopSite, loopTerminates l := by
  intro l
  cases l with
  | apertureMapTP =>
    intro pix_flux aperture
    rw [forLoopFuel_complete _ _ _ _ (le_refl _), foldl_append_map]
    rfl
  | apertureMapFFI =>
    intro pix_flux aperture
    rw [forLoopFuel_complete _ _ _ _ (le_refl _), foldl_append_map]
    rfl
  | removeNansFor =>
    intro d
    rw [forLoopFuel_complete _ _ _ _ (by simp), foldl_append_filter]
    rfl
  | exampleLightcurvesList =>
    intro td ids
    rw [forLoopFuel_complete _ _ _ _ (le_refl _), foldl_append_map]
    rfl
  | exampleLabelsList =>
    intro tl ids
    rw [forLoopFuel_complete _ _ _ _ (le_refl _), foldl_append_map]
    rfl
  | examplePlotFor =>
    intro ids lcs labels
    rw [forLoopFuel_complete _ _ _ _ (by simp), foldl_append_map]
    rfl
  | confusionAnnotationOuterFor =>
    intro input_labels predictions
    rw [forLoopFuel_complete _ _ _ _ (by simp), foldl_append_flat]
    rfl
  | confusionAnnotationInnerFor =>
    intro input_labels predictions i
    rw [forLoopFuel_complete _ _ _ _ (by simp), foldl_append_map]
    rfl
  | ticidsFor =>
    refine ⟨rfl, ?_⟩
    intro download
    rw [forLoopFuel_complete _ _ _ _ (le_refl _), foldl_append_map]
    rfl
  | qualityCheckFor =>
    intro lcs
    rw [forLoopFuel_complete _ _ _ _ (le_refl _), foldl_append_map]
    rfl
  | predictionFor =>
    intro lcs
    rw [forLoopFuel_complete _ _ _ _ (le_refl _), foldl_append_map]
    rfl
